import Mathlib

/-!
# A verification development for the libdrop storage journal and transfer engine

This file gives a shallow embedding, in Lean 4, of the parts of the libdrop
sources relevant to the storage journal (`drop-storage/src/lib.rs`), the
storage dispatcher (`drop-transfer/src/storage_dispatch.rs`), the chunked
file reader (`drop-transfer/src/file/reader/mod.rs`), the V4 server download
handler (`drop-transfer/src/ws/server/v4.rs`) and the service façade
(`drop-transfer/src/service.rs`), together with theorems about them.

UUIDs are modelled as natural numbers, SHA-256 digests as abstract natural
numbers (only equality of digests is ever used by the code), timestamps as
natural numbers, and the SQLite tables as Lean lists of row structures.
-/

namespace Libdrop

/-- Direction of a transfer (`drop_storage::types::TransferType`). -/
inductive TransferType where
  | incoming
  | outgoing
deriving DecidableEq, Repr

/-- The integer stored in the `is_outgoing` column.  `transfers_since` maps
`0` back to `Incoming` and `1` back to `Outgoing`; the round-trip is pinned
down by the unit tests in `drop-storage/src/lib.rs`. -/
def TransferType.toCode : TransferType → Nat
  | .incoming => 0
  | .outgoing => 1

/-- `drop_storage::types::TransferIncomingPath`. -/
structure TransferIncomingPath where
  file_id : String
  relative_path : String
  size : Nat
deriving DecidableEq, Repr

/-- `drop_storage::types::TransferOutgoingPath`. -/
structure TransferOutgoingPath where
  file_id : String
  relative_path : String
  base_path : String
  size : Nat
deriving DecidableEq, Repr

/-- `drop_storage::types::TransferFiles`. -/
inductive TransferFiles where
  | incoming (files : List TransferIncomingPath)
  | outgoing (files : List TransferOutgoingPath)
deriving DecidableEq, Repr

/-- The direction encoded by a `TransferFiles` value, as used by
`Storage::insert_transfer`. -/
def TransferFiles.direction : TransferFiles → TransferType
  | .incoming _ => .incoming
  | .outgoing _ => .outgoing

/-- `drop_storage::types::TransferInfo`. -/
structure TransferInfo where
  id : Nat
  peer : String
  files : TransferFiles
deriving DecidableEq, Repr

/-! ## Database rows -/

/-- A row of the `transfers` table. -/
structure TransferRow where
  id : Nat
  peer : String
  is_outgoing : Nat
  created_at : Nat
deriving DecidableEq, Repr

/-- A row of the `outgoing_paths` table. -/
structure OutgoingPathRow where
  id : Nat
  transfer_id : Nat
  relative_path : String
  path_hash : String
  bytes : Nat
  base_path : String
  created_at : Nat
deriving DecidableEq, Repr

/-- A row of the `incoming_paths` table. -/
structure IncomingPathRow where
  id : Nat
  transfer_id : Nat
  relative_path : String
  path_hash : String
  bytes : Nat
  checksum : Option Nat
  created_at : Nat
deriving DecidableEq, Repr

/-- A row of `transfer_active_states`. -/
structure TransferActiveRow where
  transfer_id : Nat
  created_at : Nat
deriving DecidableEq, Repr

/-- A row of `transfer_cancel_states`. -/
structure TransferCancelRow where
  transfer_id : Nat
  by_peer : Bool
  created_at : Nat
deriving DecidableEq, Repr

/-- A row of `transfer_failed_states`. -/
structure TransferFailedRow where
  transfer_id : Nat
  status_code : Nat
  created_at : Nat
deriving DecidableEq, Repr

/-- A row of `outgoing_path_pending_states`. -/
structure OutPendingRow where
  path_id : Nat
  created_at : Nat
deriving DecidableEq, Repr

/-- A row of `outgoing_path_started_states`. -/
structure OutStartedRow where
  path_id : Nat
  bytes_sent : Int
  created_at : Nat
deriving DecidableEq, Repr

/-- A row of `outgoing_path_cancel_states`. -/
structure OutCancelRow where
  path_id : Nat
  by_peer : Bool
  bytes_sent : Int
  created_at : Nat
deriving DecidableEq, Repr

/-- A row of `outgoing_path_failed_states`. -/
structure OutFailedRow where
  path_id : Nat
  status_code : Nat
  bytes_sent : Int
  created_at : Nat
deriving DecidableEq, Repr

/-- A row of `outgoing_path_completed_states`. -/
structure OutCompletedRow where
  path_id : Nat
  created_at : Nat
deriving DecidableEq, Repr

/-- A row of `outgoing_path_reject_states`. -/
structure OutRejectRow where
  path_id : Nat
  by_peer : Bool
  created_at : Nat
deriving DecidableEq, Repr

/-- A row of `incoming_path_pending_states`. -/
structure InPendingRow where
  path_id : Nat
  created_at : Nat
deriving DecidableEq, Repr

/-- A row of `incoming_path_started_states`. -/
structure InStartedRow where
  path_id : Nat
  base_dir : String
  bytes_received : Int
  created_at : Nat
deriving DecidableEq, Repr

/-- A row of `incoming_path_cancel_states`. -/
structure InCancelRow where
  path_id : Nat
  by_peer : Bool
  bytes_received : Int
  created_at : Nat
deriving DecidableEq, Repr

/-- A row of `incoming_path_failed_states`. -/
structure InFailedRow where
  path_id : Nat
  status_code : Nat
  bytes_received : Int
  created_at : Nat
deriving DecidableEq, Repr

/-- A row of `incoming_path_completed_states`. -/
structure InCompletedRow where
  path_id : Nat
  final_path : String
  created_at : Nat
deriving DecidableEq, Repr

/-- A row of `incoming_path_reject_states`. -/
structure InRejectRow where
  path_id : Nat
  by_peer : Bool
  created_at : Nat
deriving DecidableEq, Repr

/-- The SQLite database behind `drop_storage::Storage`, as a collection of
tables.  `next_outgoing_path_id`/`next_incoming_path_id` model the per-table
rowid auto-increment counters. -/
structure Storage where
  transfers : List TransferRow := []
  outgoing_paths : List OutgoingPathRow := []
  incoming_paths : List IncomingPathRow := []
  transfer_active_states : List TransferActiveRow := []
  transfer_cancel_states : List TransferCancelRow := []
  transfer_failed_states : List TransferFailedRow := []
  outgoing_path_pending_states : List OutPendingRow := []
  outgoing_path_started_states : List OutStartedRow := []
  outgoing_path_cancel_states : List OutCancelRow := []
  outgoing_path_failed_states : List OutFailedRow := []
  outgoing_path_completed_states : List OutCompletedRow := []
  outgoing_path_reject_states : List OutRejectRow := []
  incoming_path_pending_states : List InPendingRow := []
  incoming_path_started_states : List InStartedRow := []
  incoming_path_cancel_states : List InCancelRow := []
  incoming_path_failed_states : List InFailedRow := []
  incoming_path_completed_states : List InCompletedRow := []
  incoming_path_reject_states : List InRejectRow := []
  next_outgoing_path_id : Nat := 0
  next_incoming_path_id : Nat := 0
deriving DecidableEq, Repr

/-! ## Inserting transfers (`Storage::insert_transfer`) -/

/-- `Storage::insert_incoming_path`: `INSERT INTO incoming_paths ... ON
CONFLICT DO NOTHING`, keyed on `(transfer_id, path_hash)`. -/
def insert_incoming_path (now : Nat) (transfer_id : Nat) (path : TransferIncomingPath)
    (s : Storage) : Storage :=
  if s.incoming_paths.any fun r =>
      r.transfer_id == transfer_id && r.path_hash == path.file_id then
    s
  else
    { s with
      incoming_paths := s.incoming_paths ++
        [{ id := s.next_incoming_path_id
           transfer_id
           relative_path := path.relative_path
           path_hash := path.file_id
           bytes := path.size
           checksum := none
           created_at := now }]
      next_incoming_path_id := s.next_incoming_path_id + 1 }

/-- `Storage::insert_outgoing_path`: `INSERT INTO outgoing_paths ...`. -/
def insert_outgoing_path (now : Nat) (transfer_id : Nat) (path : TransferOutgoingPath)
    (s : Storage) : Storage :=
  { s with
    outgoing_paths := s.outgoing_paths ++
      [{ id := s.next_outgoing_path_id
         transfer_id
         relative_path := path.relative_path
         path_hash := path.file_id
         bytes := path.size
         base_path := path.base_path
         created_at := now }]
    next_outgoing_path_id := s.next_outgoing_path_id + 1 }

/-- `Storage::insert_transfer`: one transaction inserting the transfer row
followed by every file row.  `now` models the SQL `created_at` default. -/
def insert_transfer (now : Nat) (transfer : TransferInfo) (s : Storage) : Storage :=
  let tcode := transfer.files.direction.toCode
  let s :=
    { s with transfers := s.transfers ++
        [{ id := transfer.id, peer := transfer.peer, is_outgoing := tcode, created_at := now }] }
  match transfer.files with
  | .incoming files => files.foldl (fun s f => insert_incoming_path now transfer.id f s) s
  | .outgoing files => files.foldl (fun s f => insert_outgoing_path now transfer.id f s) s

/-! ## Per-entity state inserts

All `insert_*_state` operations on path tables resolve the parent row with
the sub-select `(SELECT id FROM <paths> WHERE transfer_id = ?1 AND path_hash
= ?2)`. -/

/-- The scalar sub-select over `outgoing_paths`. -/
def resolve_outgoing_path_id (s : Storage) (transfer_id : Nat) (path_hash : String) :
    Option Nat :=
  (s.outgoing_paths.find? fun r =>
    r.transfer_id == transfer_id && r.path_hash == path_hash).map (·.id)

/-- The scalar sub-select over `incoming_paths`. -/
def resolve_incoming_path_id (s : Storage) (transfer_id : Nat) (path_hash : String) :
    Option Nat :=
  (s.incoming_paths.find? fun r =>
    r.transfer_id == transfer_id && r.path_hash == path_hash).map (·.id)

/-- Modelled from the spec: the SQLite schema (the `migrations` directory of
`drop-storage`) is not among the sources, only the SQL statements in
`lib.rs` are.  Per the spec (§4.1), when the parent sub-select returns null
the row is rejected by the not-null constraint, the statement silently
inserts nothing and the call still returns success.  `withResolved`
captures exactly that: apply `k` to the resolved parent id, or leave the
storage unchanged when the parent row is missing. -/
def withResolved (pid? : Option Nat) (s : Storage) (k : Nat → Storage) : Storage :=
  match pid? with
  | none => s
  | some pid => k pid

/-- `Storage::insert_transfer_active_state`. -/
def insert_transfer_active_state (now : Nat) (transfer_id : Nat) (s : Storage) : Storage :=
  { s with transfer_active_states :=
      s.transfer_active_states ++ [{ transfer_id, created_at := now }] }

/-- `Storage::insert_transfer_failed_state`. -/
def insert_transfer_failed_state (now : Nat) (transfer_id : Nat) (error : Nat)
    (s : Storage) : Storage :=
  { s with transfer_failed_states :=
      s.transfer_failed_states ++ [{ transfer_id, status_code := error, created_at := now }] }

/-- `Storage::insert_transfer_cancel_state`. -/
def insert_transfer_cancel_state (now : Nat) (transfer_id : Nat) (by_peer : Bool)
    (s : Storage) : Storage :=
  { s with transfer_cancel_states :=
      s.transfer_cancel_states ++ [{ transfer_id, by_peer, created_at := now }] }

/-- `Storage::insert_outgoing_path_pending_state`. -/
def insert_outgoing_path_pending_state (now : Nat) (transfer_id : Nat) (file_id : String)
    (s : Storage) : Storage :=
  withResolved (resolve_outgoing_path_id s transfer_id file_id) s fun pid =>
    { s with outgoing_path_pending_states :=
        s.outgoing_path_pending_states ++ [{ path_id := pid, created_at := now }] }

/-- `Storage::insert_incoming_path_pending_state`. -/
def insert_incoming_path_pending_state (now : Nat) (transfer_id : Nat) (file_id : String)
    (s : Storage) : Storage :=
  withResolved (resolve_incoming_path_id s transfer_id file_id) s fun pid =>
    { s with incoming_path_pending_states :=
        s.incoming_path_pending_states ++ [{ path_id := pid, created_at := now }] }

/-- `Storage::insert_outgoing_path_started_state`: note the hard-coded
`bytes_sent` value `0` in `params![tid, path_id, 0]`. -/
def insert_outgoing_path_started_state (now : Nat) (transfer_id : Nat) (path_id : String)
    (s : Storage) : Storage :=
  withResolved (resolve_outgoing_path_id s transfer_id path_id) s fun pid =>
    { s with outgoing_path_started_states :=
        s.outgoing_path_started_states ++
          [{ path_id := pid, bytes_sent := 0, created_at := now }] }

/-- `Storage::insert_incoming_path_started_state`: note the hard-coded
`bytes_received` value `0` in `params![tid, path_id, base_dir, 0]`. -/
def insert_incoming_path_started_state (now : Nat) (transfer_id : Nat) (path_id : String)
    (base_dir : String) (s : Storage) : Storage :=
  withResolved (resolve_incoming_path_id s transfer_id path_id) s fun pid =>
    { s with incoming_path_started_states :=
        s.incoming_path_started_states ++
          [{ path_id := pid, base_dir, bytes_received := 0, created_at := now }] }

/-- `Storage::insert_outgoing_path_cancel_state`. -/
def insert_outgoing_path_cancel_state (now : Nat) (transfer_id : Nat) (path_id : String)
    (by_peer : Bool) (bytes_sent : Int) (s : Storage) : Storage :=
  withResolved (resolve_outgoing_path_id s transfer_id path_id) s fun pid =>
    { s with outgoing_path_cancel_states :=
        s.outgoing_path_cancel_states ++
          [{ path_id := pid, by_peer, bytes_sent, created_at := now }] }

/-- `Storage::insert_incoming_path_cancel_state`. -/
def insert_incoming_path_cancel_state (now : Nat) (transfer_id : Nat) (path_id : String)
    (by_peer : Bool) (bytes_received : Int) (s : Storage) : Storage :=
  withResolved (resolve_incoming_path_id s transfer_id path_id) s fun pid =>
    { s with incoming_path_cancel_states :=
        s.incoming_path_cancel_states ++
          [{ path_id := pid, by_peer, bytes_received, created_at := now }] }

/-- `Storage::insert_incoming_path_failed_state`. -/
def insert_incoming_path_failed_state (now : Nat) (transfer_id : Nat) (path_id : String)
    (error : Nat) (bytes_received : Int) (s : Storage) : Storage :=
  withResolved (resolve_incoming_path_id s transfer_id path_id) s fun pid =>
    { s with incoming_path_failed_states :=
        s.incoming_path_failed_states ++
          [{ path_id := pid, status_code := error, bytes_received, created_at := now }] }

/-- `Storage::insert_outgoing_path_failed_state`. -/
def insert_outgoing_path_failed_state (now : Nat) (transfer_id : Nat) (path_id : String)
    (error : Nat) (bytes_sent : Int) (s : Storage) : Storage :=
  withResolved (resolve_outgoing_path_id s transfer_id path_id) s fun pid =>
    { s with outgoing_path_failed_states :=
        s.outgoing_path_failed_states ++
          [{ path_id := pid, status_code := error, bytes_sent, created_at := now }] }

/-- `Storage::insert_outgoing_path_completed_state`. -/
def insert_outgoing_path_completed_state (now : Nat) (transfer_id : Nat) (path_id : String)
    (s : Storage) : Storage :=
  withResolved (resolve_outgoing_path_id s transfer_id path_id) s fun pid =>
    { s with outgoing_path_completed_states :=
        s.outgoing_path_completed_states ++ [{ path_id := pid, created_at := now }] }

/-- `Storage::insert_incoming_path_completed_state`. -/
def insert_incoming_path_completed_state (now : Nat) (transfer_id : Nat) (path_id : String)
    (final_path : String) (s : Storage) : Storage :=
  withResolved (resolve_incoming_path_id s transfer_id path_id) s fun pid =>
    { s with incoming_path_completed_states :=
        s.incoming_path_completed_states ++
          [{ path_id := pid, final_path, created_at := now }] }

/-- `Storage::insert_outgoing_path_reject_state`. -/
def insert_outgoing_path_reject_state (now : Nat) (transfer_id : Nat) (path_id : String)
    (by_peer : Bool) (s : Storage) : Storage :=
  withResolved (resolve_outgoing_path_id s transfer_id path_id) s fun pid =>
    { s with outgoing_path_reject_states :=
        s.outgoing_path_reject_states ++ [{ path_id := pid, by_peer, created_at := now }] }

/-- `Storage::insert_incoming_path_reject_state`. -/
def insert_incoming_path_reject_state (now : Nat) (transfer_id : Nat) (path_id : String)
    (by_peer : Bool) (s : Storage) : Storage :=
  withResolved (resolve_incoming_path_id s transfer_id path_id) s fun pid =>
    { s with incoming_path_reject_states :=
        s.incoming_path_reject_states ++ [{ path_id := pid, by_peer, created_at := now }] }

/-! ## Removing a rejected file (`Storage::remove_transfer_file`) -/

/-- The `WHERE` predicate of the `DELETE FROM outgoing_paths` statement:
matching `(transfer_id, path_hash)` and `id IN (SELECT path_id FROM
outgoing_path_reject_states)`. -/
def out_delete_pred (s : Storage) (transfer_id : Nat) (file_id : String)
    (r : OutgoingPathRow) : Bool :=
  r.transfer_id == transfer_id && r.path_hash == file_id &&
    s.outgoing_path_reject_states.any fun q => q.path_id == r.id

/-- The `WHERE` predicate of the `DELETE FROM incoming_paths` statement. -/
def in_delete_pred (s : Storage) (transfer_id : Nat) (file_id : String)
    (r : IncomingPathRow) : Bool :=
  r.transfer_id == transfer_id && r.path_hash == file_id &&
    s.incoming_path_reject_states.any fun q => q.path_id == r.id

/-- `Storage::remove_transfer_file`.  Returns `(result, warned, storage)`:
`result` is `Ok(None)` (not found) or `Ok(Some(()))` (removed), `warned`
records whether the both-directions warning was logged. -/
def remove_transfer_file (s : Storage) (transfer_id : Nat) (file_id : String) :
    Option Unit × Bool × Storage :=
  let outCount := (s.outgoing_paths.filter (out_delete_pred s transfer_id file_id)).length
  let inCount := (s.incoming_paths.filter (in_delete_pred s transfer_id file_id)).length
  let count := outCount + inCount
  let s' :=
    { s with
      outgoing_paths := s.outgoing_paths.filter fun r =>
        !(out_delete_pred s transfer_id file_id r)
      incoming_paths := s.incoming_paths.filter fun r =>
        !(in_delete_pred s transfer_id file_id r) }
  if count = 0 then (none, false, s')
  else if count = 1 then (some (), false, s')
  else (some (), true, s')

/-! ## Reading transfers back (`Storage::transfers_since`) -/

/-- `drop_storage::types::TransferStateEventData`. -/
inductive TransferStateEventData where
  | active
  | cancel (by_peer : Bool)
  | failed (status_code : Nat)
deriving DecidableEq, Repr

/-- `drop_storage::types::TransferStateEvent`. -/
structure TransferStateEvent where
  transfer_id : Nat
  created_at : Nat
  data : TransferStateEventData
deriving DecidableEq, Repr

/-- `drop_storage::types::OutgoingPathStateEventData`. -/
inductive OutgoingPathStateEventData where
  | pending
  | started (bytes_sent : Int)
  | cancel (by_peer : Bool) (bytes_sent : Int)
  | failed (status_code : Nat) (bytes_sent : Int)
  | completed
  | rejected (by_peer : Bool)
deriving DecidableEq, Repr

/-- `drop_storage::types::OutgoingPathStateEvent`. -/
structure OutgoingPathStateEvent where
  path_id : Nat
  created_at : Nat
  data : OutgoingPathStateEventData
deriving DecidableEq, Repr

/-- `drop_storage::types::IncomingPathStateEventData`. -/
inductive IncomingPathStateEventData where
  | pending
  | started (bytes_received : Int) (base_dir : String)
  | cancel (by_peer : Bool) (bytes_received : Int)
  | failed (status_code : Nat) (bytes_received : Int)
  | completed (final_path : String)
  | rejected (by_peer : Bool)
deriving DecidableEq, Repr

/-- `drop_storage::types::IncomingPathStateEvent`. -/
structure IncomingPathStateEvent where
  path_id : Nat
  created_at : Nat
  data : IncomingPathStateEventData
deriving DecidableEq, Repr

/-- `drop_storage::types::OutgoingPath`. -/
structure OutgoingPath where
  id : Nat
  transfer_id : Nat
  base_path : String
  relative_path : String
  file_id : String
  bytes : Nat
  created_at : Nat
  states : List OutgoingPathStateEvent
deriving DecidableEq, Repr

/-- `drop_storage::types::IncomingPath`. -/
structure IncomingPath where
  id : Nat
  transfer_id : Nat
  relative_path : String
  file_id : String
  bytes : Nat
  created_at : Nat
  states : List IncomingPathStateEvent
deriving DecidableEq, Repr

/-- `drop_storage::types::DbTransferType`. -/
inductive DbTransferType where
  | incoming (paths : List IncomingPath)
  | outgoing (paths : List OutgoingPath)
deriving DecidableEq, Repr

/-- The direction of a reconstructed transfer. -/
def DbTransferType.direction : DbTransferType → TransferType
  | .incoming _ => .incoming
  | .outgoing _ => .outgoing

/-- `drop_storage::types::Transfer`. -/
structure Transfer where
  id : Nat
  peer_id : String
  transfer_type : DbTransferType
  created_at : Nat
  states : List TransferStateEvent
deriving DecidableEq, Repr

/-- Rust's `slice::sort_by(|a, b| a.created_at.cmp(&b.created_at))` — a
stable ascending sort on `created_at`. -/
def sortByCreatedAt {α : Type} (created : α → Nat) (l : List α) : List α :=
  l.mergeSort fun a b => created a ≤ created b

/-- The concatenation of the six per-state queries for one outgoing path,
in the order they appear in `Storage::get_outgoing_paths`. -/
def outgoing_path_state_events (s : Storage) (pid : Nat) : List OutgoingPathStateEvent :=
  ((s.outgoing_path_pending_states.filter fun r => r.path_id == pid).map fun r =>
      { path_id := r.path_id, created_at := r.created_at,
        data := OutgoingPathStateEventData.pending })
  ++ ((s.outgoing_path_started_states.filter fun r => r.path_id == pid).map fun r =>
      { path_id := r.path_id, created_at := r.created_at,
        data := OutgoingPathStateEventData.started r.bytes_sent })
  ++ ((s.outgoing_path_cancel_states.filter fun r => r.path_id == pid).map fun r =>
      { path_id := r.path_id, created_at := r.created_at,
        data := OutgoingPathStateEventData.cancel r.by_peer r.bytes_sent })
  ++ ((s.outgoing_path_failed_states.filter fun r => r.path_id == pid).map fun r =>
      { path_id := r.path_id, created_at := r.created_at,
        data := OutgoingPathStateEventData.failed r.status_code r.bytes_sent })
  ++ ((s.outgoing_path_completed_states.filter fun r => r.path_id == pid).map fun r =>
      { path_id := r.path_id, created_at := r.created_at,
        data := OutgoingPathStateEventData.completed })
  ++ ((s.outgoing_path_reject_states.filter fun r => r.path_id == pid).map fun r =>
      { path_id := r.path_id, created_at := r.created_at,
        data := OutgoingPathStateEventData.rejected r.by_peer })

/-- The concatenation of the six per-state queries for one incoming path,
in the order they appear in `Storage::get_incoming_paths`. -/
def incoming_path_state_events (s : Storage) (pid : Nat) : List IncomingPathStateEvent :=
  ((s.incoming_path_pending_states.filter fun r => r.path_id == pid).map fun r =>
      { path_id := r.path_id, created_at := r.created_at,
        data := IncomingPathStateEventData.pending })
  ++ ((s.incoming_path_started_states.filter fun r => r.path_id == pid).map fun r =>
      { path_id := r.path_id, created_at := r.created_at,
        data := IncomingPathStateEventData.started r.bytes_received r.base_dir })
  ++ ((s.incoming_path_cancel_states.filter fun r => r.path_id == pid).map fun r =>
      { path_id := r.path_id, created_at := r.created_at,
        data := IncomingPathStateEventData.cancel r.by_peer r.bytes_received })
  ++ ((s.incoming_path_failed_states.filter fun r => r.path_id == pid).map fun r =>
      { path_id := r.path_id, created_at := r.created_at,
        data := IncomingPathStateEventData.failed r.status_code r.bytes_received })
  ++ ((s.incoming_path_completed_states.filter fun r => r.path_id == pid).map fun r =>
      { path_id := r.path_id, created_at := r.created_at,
        data := IncomingPathStateEventData.completed r.final_path })
  ++ ((s.incoming_path_reject_states.filter fun r => r.path_id == pid).map fun r =>
      { path_id := r.path_id, created_at := r.created_at,
        data := IncomingPathStateEventData.rejected r.by_peer })

/-- `Storage::get_outgoing_paths`. -/
def get_outgoing_paths (s : Storage) (transfer_id : Nat) : List OutgoingPath :=
  (s.outgoing_paths.filter fun r => r.transfer_id == transfer_id).map fun r =>
    { id := r.id
      transfer_id
      base_path := r.base_path
      relative_path := r.relative_path
      file_id := r.path_hash
      bytes := r.bytes
      created_at := r.created_at
      states := sortByCreatedAt (·.created_at) (outgoing_path_state_events s r.id) }

/-- `Storage::get_incoming_paths`. -/
def get_incoming_paths (s : Storage) (transfer_id : Nat) : List IncomingPath :=
  (s.incoming_paths.filter fun r => r.transfer_id == transfer_id).map fun r =>
    { id := r.id
      transfer_id
      relative_path := r.relative_path
      file_id := r.path_hash
      bytes := r.bytes
      created_at := r.created_at
      states := sortByCreatedAt (·.created_at) (incoming_path_state_events s r.id) }

/-- The three transfer-level state queries of `transfers_since`, in the
order the code extends `transfer.states`: active, cancel, failed. -/
def transfer_state_events (s : Storage) (tid : Nat) : List TransferStateEvent :=
  ((s.transfer_active_states.filter fun r => r.transfer_id == tid).map fun r =>
      { transfer_id := tid, created_at := r.created_at,
        data := TransferStateEventData.active })
  ++ ((s.transfer_cancel_states.filter fun r => r.transfer_id == tid).map fun r =>
      { transfer_id := tid, created_at := r.created_at,
        data := TransferStateEventData.cancel r.by_peer })
  ++ ((s.transfer_failed_states.filter fun r => r.transfer_id == tid).map fun r =>
      { transfer_id := tid, created_at := r.created_at,
        data := TransferStateEventData.failed r.status_code })

/-- Building one `Transfer` from a `transfers` row.  The `match` on
`is_outgoing` mirrors the `0`/`1`/`unreachable!` arms in `transfers_since`;
the panic on any other value is modelled by `none`. -/
def row_to_transfer (s : Storage) (r : TransferRow) : Option Transfer :=
  (if r.is_outgoing = 0 then some (DbTransferType.incoming (get_incoming_paths s r.id))
    else if r.is_outgoing = 1 then some (DbTransferType.outgoing (get_outgoing_paths s r.id))
    else none).map fun tt =>
    { id := r.id
      peer_id := r.peer
      transfer_type := tt
      created_at := r.created_at
      states := sortByCreatedAt (·.created_at) (transfer_state_events s r.id) }

/-- The total function underlying `row_to_transfer` on well-formed rows
(`is_outgoing` equal to `1` means outgoing, otherwise incoming). -/
def transfer_of_row (s : Storage) (r : TransferRow) : Transfer :=
  { id := r.id
    peer_id := r.peer
    transfer_type :=
      if r.is_outgoing = 1 then DbTransferType.outgoing (get_outgoing_paths s r.id)
      else DbTransferType.incoming (get_incoming_paths s r.id)
    created_at := r.created_at
    states := sortByCreatedAt (·.created_at) (transfer_state_events s r.id) }

/-- `Storage::transfers_since`: all transfers with `created_at >=
datetime(?1, 'unixepoch')`, each with its reconstructed file lists and
sorted event histories.  A row with an invalid `is_outgoing` value makes
the whole call panic (`unreachable!`), modelled by `none`. -/
def transfers_since (s : Storage) (since_timestamp : Nat) : Option (List Transfer) :=
  (s.transfers.filter fun r => since_timestamp ≤ r.created_at).mapM (row_to_transfer s)

/-! ## The chunked file reader (`drop-transfer/src/file/reader/mod.rs`) -/

/-- `CHUNK_SIZE`: number of bytes read from files when uploading. -/
def CHUNK_SIZE : Nat := 1024 * 1024

/-- The two error variants `FileReader::read_chunk` can produce itself. -/
inductive ReadChunkError where
  | fileModified
  | mismatchedSize
deriving DecidableEq, Repr

/-- State of a `FileReader`: the metadata captured at open (`meta`), the
file's current modification time, the sequence of byte counts the inner
`Reader` will deliver on successive reads (an empty list models EOF, and a
read into the 1 MiB buffer can never deliver more than `CHUNK_SIZE`
bytes), and the inner reader's cumulative `bytes_read` counter. -/
structure FileReaderState where
  metaLen : Nat
  metaMtime : Nat
  curMtime : Nat
  reads : List Nat
  bytesRead : Nat
deriving DecidableEq, Repr

/-- `self.inner.read(&mut self.buffer)`: the next byte count the inner
reader delivers, capped by the 1 MiB buffer; an exhausted sequence reads
`0` (EOF). -/
def inner_read (reads : List Nat) : Nat :=
  match reads with
  | [] => 0
  | m :: _ => min m CHUNK_SIZE

/-- The reader state after one inner read: the read is consumed and
`bytes_read` advances by the bytes delivered. -/
def reader_advance (s : FileReaderState) : FileReaderState :=
  { s with reads := s.reads.tail, bytesRead := s.bytesRead + inner_read s.reads }

/-- `FileReader::read_chunk`: read into the buffer, fail `FileModified` if
the modification time changed since open, then on EOF fail
`MismatchedSize` unless exactly `meta.len()` bytes were read, and fail
`MismatchedSize` whenever the cumulative count exceeds `meta.len()`. -/
def read_chunk (s : FileReaderState) :
    Except ReadChunkError (Option Nat × FileReaderState) :=
  if s.curMtime ≠ s.metaMtime then .error .fileModified
  else if inner_read s.reads = 0 then
    if s.bytesRead + inner_read s.reads ≠ s.metaLen then .error .mismatchedSize
    else .ok (none, reader_advance s)
  else if s.metaLen < s.bytesRead + inner_read s.reads then .error .mismatchedSize
  else .ok (some (inner_read s.reads), reader_advance s)

/-! ## The storage dispatcher (`drop-transfer/src/storage_dispatch.rs`) -/

/-- `drop_storage::types::Event`, the translated form of a host event. -/
inductive StorageEvent where
  | pending (transfer_info : TransferInfo)
  | fileUploadStarted (transfer_id : Nat) (file_id : String)
  | fileDownloadStarted (transfer_id : Nat) (file_id : String) (base_dir : String)
  | fileCanceled (transfer_type : TransferType) (transfer_id : Nat) (file_id : String)
      (by_peer : Bool)
  | fileDownloadComplete (transfer_id : Nat) (file_id : String) (final_path : String)
  | fileUploadComplete (transfer_id : Nat) (file_id : String)
  | transferCanceled (transfer_type : TransferType) (transfer_info : TransferInfo)
      (by_peer : Bool)
  | transferFailed (transfer_type : TransferType) (transfer_info : TransferInfo)
      (error_code : Nat)
  | fileFailed (transfer_type : TransferType) (transfer_id : Nat) (file_id : String)
      (error_code : Nat)
  | fileProgress (transfer_id : Nat) (file_id : String) (progress : Int)
  | fileReject (transfer_type : TransferType) (transfer_id : Nat) (file_id : String)
      (by_peer : Bool)
deriving DecidableEq, Repr

/-- One call into the storage journal, with its arguments, as issued by
`StorageDispatch::handle_event`. -/
inductive JournalCall where
  | insertIncomingPathPendingState (transfer_id : Nat) (file_id : String)
  | insertOutgoingPathPendingState (transfer_id : Nat) (file_id : String)
  | insertOutgoingPathStartedState (transfer_id : Nat) (file_id : String)
  | insertIncomingPathStartedState (transfer_id : Nat) (file_id : String) (base_dir : String)
  | insertIncomingPathCancelState (transfer_id : Nat) (file_id : String) (by_peer : Bool)
      (bytes_received : Int)
  | insertOutgoingPathCancelState (transfer_id : Nat) (file_id : String) (by_peer : Bool)
      (bytes_sent : Int)
  | insertIncomingPathCompletedState (transfer_id : Nat) (file_id : String)
      (final_path : String)
  | insertOutgoingPathCompletedState (transfer_id : Nat) (file_id : String)
  | insertTransferCancelState (transfer_id : Nat) (by_peer : Bool)
  | insertTransferFailedState (transfer_id : Nat) (error_code : Nat)
  | insertIncomingPathFailedState (transfer_id : Nat) (file_id : String) (error_code : Nat)
      (bytes_received : Int)
  | insertOutgoingPathFailedState (transfer_id : Nat) (file_id : String) (error_code : Nat)
      (bytes_sent : Int)
  | insertIncomingPathRejectState (transfer_id : Nat) (file_id : String) (by_peer : Bool)
  | insertOutgoingPathRejectState (transfer_id : Nat) (file_id : String) (by_peer : Bool)
deriving DecidableEq, Repr

/-- The dispatcher's in-RAM `HashMap<(Uuid, String), i64>` of last-known
per-file progress, as an association list. -/
abbrev ProgressMap : Type := List ((Nat × String) × Int)

/-- `HashMap::entry(k).or_default() = v`. -/
def progressSet (m : ProgressMap) (k : Nat × String) (v : Int) : ProgressMap :=
  match m with
  | [] => [(k, v)]
  | e :: rest => if e.1 = k then (k, v) :: rest else e :: progressSet rest k v

/-- `HashMap::remove(k)`. -/
def progressErase (m : ProgressMap) (k : Nat × String) : ProgressMap :=
  m.filter fun e => !(e.1 == k)

/-- `HashMap::get(k)` (the value part of `remove`). -/
def progressLookup (m : ProgressMap) (k : Nat × String) : Option Int :=
  (m.find? fun e => e.1 == k).map (·.2)

/-- `StorageDispatch::get_file_progress`: remove the map entry and return
the stored value, defaulting to `0`. -/
def get_file_progress (m : ProgressMap) (transfer_id : Nat) (file_id : String) :
    Int × ProgressMap :=
  ((progressLookup m (transfer_id, file_id)).getD 0, progressErase m (transfer_id, file_id))

/-- The `file_id`s of a `TransferFiles` value. -/
def TransferFiles.ids : TransferFiles → List String
  | .incoming files => files.map (·.file_id)
  | .outgoing files => files.map (·.file_id)

/-- `StorageDispatch::handle_event`: translate one storage event into
journal calls, updating the in-RAM progress map. -/
def handle_event (m : ProgressMap) (e : StorageEvent) : ProgressMap × List JournalCall :=
  match e with
  | .pending info =>
    match info.files with
    | .incoming files =>
      (m, files.map fun f => .insertIncomingPathPendingState info.id f.file_id)
    | .outgoing files =>
      (m, files.map fun f => .insertOutgoingPathPendingState info.id f.file_id)
  | .fileUploadStarted tid fid => (m, [.insertOutgoingPathStartedState tid fid])
  | .fileDownloadStarted tid fid base_dir =>
    (m, [.insertIncomingPathStartedState tid fid base_dir])
  | .fileCanceled tt tid fid by_peer =>
    let (progress, m') := get_file_progress m tid fid
    match tt with
    | .incoming => (m', [.insertIncomingPathCancelState tid fid by_peer progress])
    | .outgoing => (m', [.insertOutgoingPathCancelState tid fid by_peer progress])
  | .fileDownloadComplete tid fid final_path =>
    (m, [.insertIncomingPathCompletedState tid fid final_path])
  | .fileUploadComplete tid fid => (m, [.insertOutgoingPathCompletedState tid fid])
  | .transferCanceled _ info by_peer => (m, [.insertTransferCancelState info.id by_peer])
  | .transferFailed _ info error_code => (m, [.insertTransferFailedState info.id error_code])
  | .fileFailed tt tid fid error_code =>
    let (progress, m') := get_file_progress m tid fid
    match tt with
    | .incoming => (m', [.insertIncomingPathFailedState tid fid error_code progress])
    | .outgoing => (m', [.insertOutgoingPathFailedState tid fid error_code progress])
  | .fileProgress tid fid progress => (progressSet m (tid, fid) progress, [])
  | .fileReject tt tid fid by_peer =>
    match tt with
    | .incoming => (m, [.insertIncomingPathRejectState tid fid by_peer])
    | .outgoing => (m, [.insertOutgoingPathRejectState tid fid by_peer])

/-! ## The V4 server download handler (`drop-transfer/src/ws/server/v4.rs`) -/

/-- `protocol::v4::ReportChsum` — digests are abstract values compared only
for equality. -/
structure ReportChsum where
  file : String
  limit : Nat
  checksum : Nat
deriving DecidableEq, Repr

/-- The result of `TmpFileState::load` on an existing `*.dropdl-part` file:
its size and the digest of its current contents. -/
structure TmpFileState where
  len : Nat
  csum : Nat
deriving DecidableEq, Repr

/-- The observable outcome of `Downloader::init`: the limit of the
`ReqChsum` query it sent for the partial file (if any) and the offset of
the `Start` message. -/
structure DownloadInitResult where
  req_limit : Option Nat
  offset : Nat
deriving DecidableEq, Repr

/-- `Downloader::init`, V3+ resume logic.  `tmp` is the result of loading
the temporary file (`none` models a load failure, leaving the initial
offset `0`), `target_size` is `task.file.size()`, `report` is the
`ReportChsum` received in reply to the partial-size `ReqChsum`, and
`full_csum` is the value of the cached full-file checksum cell. -/
def downloader_init (tmp : Option TmpFileState) (target_size : Nat)
    (report : ReportChsum) (full_csum : Nat) : DownloadInitResult :=
  match tmp with
  | none => { req_limit := none, offset := 0 }
  | some t =>
    if t.len < target_size then
      { req_limit := some t.len
        offset :=
          if report.limit = t.len ∧ report.checksum = t.csum then t.len else 0 }
    else if t.len = target_size then
      { req_limit := none
        offset := if full_csum = t.csum then t.len else 0 }
    else
      { req_limit := none, offset := 0 }

/-! ### Checksum cells (`HandlerInit::upgrade` and `HandlerLoop::on_checksum`) -/

/-- The files of a live transfer, as `file_id → size`. -/
abbrev XferFiles : Type := List (String × Nat)

/-- `xfer.files().get(id)`, returning the size. -/
def xferLookup (files : XferFiles) (fid : String) : Option Nat :=
  (files.find? fun e => e.1 == fid).map (·.2)

/-- A map of per-file `AsyncCell` checksum cells; `none` is an empty cell. -/
abbrev CellMap : Type := List (String × Option Nat)

/-- Look up a cell by file id. -/
def cellLookup (cells : CellMap) (fid : String) : Option (Option Nat) :=
  (cells.find? fun e => e.1 == fid).map (·.2)

/-- `AsyncCell::set` on the cell of `fid`. -/
def cellSet (cells : CellMap) (fid : String) (v : Nat) : CellMap :=
  cells.map fun e => if e.1 == fid then (e.1, some v) else e

/-- `AsyncCell::or_set`: set only when the cell is still empty. -/
def or_set (cell : Option Nat) (v : Nat) : Option Nat :=
  match cell with
  | none => some v
  | some c => some c

/-- `AsyncCell::or_set` on the cell of `fid`. -/
def cellOrSet (cells : CellMap) (fid : String) (v : Nat) : CellMap :=
  cells.map fun e => if e.1 == fid then (e.1, or_set e.2 v) else e

/-- The accumulator of the upgrade loop: the checksum cell map under
construction and the list of files whose checksum must be fetched. -/
structure UpgradeAcc where
  checksums : CellMap
  to_fetch : List String
deriving DecidableEq, Repr

/-- One iteration of the `for (xfile, csum_bytes) in ...` loop of
`HandlerInit::upgrade`: skip persisted rows whose file is not part of the
transfer, `entry(..).or_insert_with(AsyncCell::shared)` the cell, then
either `set` it from the persisted digest or queue the file for fetching. -/
def upgrade_step (files : XferFiles) (acc : UpgradeAcc) (pc : String × Option Nat) :
    UpgradeAcc :=
  match xferLookup files pc.1 with
  | none => acc
  | some _ =>
    let cells :=
      if (acc.checksums.find? fun e => e.1 == pc.1).isSome then acc.checksums
      else acc.checksums ++ [(pc.1, none)]
    match pc.2 with
    | some c => { checksums := cellSet cells pc.1 c, to_fetch := acc.to_fetch }
    | none => { checksums := cells, to_fetch := acc.to_fetch ++ [pc.1] }

/-- The cell-population part of `HandlerInit::upgrade`, folded over the
result of `fetch_checksums`. -/
def upgrade_cells (files : XferFiles) (persisted : List (String × Option Nat)) :
    UpgradeAcc :=
  persisted.foldl (upgrade_step files) { checksums := [], to_fetch := [] }

/-- The `ReqChsum` messages sent by the spawned `req_file_checksums` task:
one `(file, limit = full size)` per still-empty cell, skipping ids that no
longer resolve to a file of the transfer. -/
def req_checksum_msgs (files : XferFiles) (acc : UpgradeAcc) : List (String × Nat) :=
  acc.to_fetch.filterMap fun fid => (xferLookup files fid).map fun size => (fid, size)

/-- `HandlerLoop::on_checksum`, restricted to its effect on the checksum
cells: a report whose `limit` equals the file's full size is applied to the
cell with `or_set`; any other report is forwarded to the download task and
leaves the cells untouched. -/
def on_checksum (files : XferFiles) (cells : CellMap) (report : ReportChsum) : CellMap :=
  match xferLookup files report.file with
  | none => cells
  | some size =>
    if report.limit = size then cellOrSet cells report.file report.checksum
    else cells

/-! ## The service façade and the transfer manager
(`drop-transfer/src/service.rs`; `manager.rs` is not among the sources) -/

/-- The error kinds of `crate::Error` used by the façade operations
modelled here. -/
inductive ServiceError where
  | badTransfer
  | rejected
deriving DecidableEq, Repr

/-- A live transfer entry of the transfer manager: its files (by id) and
the per-file rejection flags. -/
structure LiveTransfer where
  files : List String
deriving DecidableEq, Repr

/-- The in-process transfer manager state: the registry of live transfers
and the per-`(transfer, file)` rejection set. -/
structure TransferManager where
  transfers : List (Nat × LiveTransfer)
  rejected : List (Nat × String)
deriving DecidableEq, Repr

/-- `TransferManager::transfer(&uuid)` / `connection(uuid)` presence. -/
def mgrLookup (m : TransferManager) (tid : Nat) : Option LiveTransfer :=
  (m.transfers.find? fun e => e.1 == tid).map (·.2)

/-- Modelled from the spec: `manager.rs` (the `TransferManager`
implementation) is not among the sources.  Per the spec (§4.5, §5),
`cancel_transfer(uuid)` removes the entry — erring iff the uuid is absent —
and the per-file sub-tasks held by join handles are aborted, i.e. every
file task of the transfer is asked to stop.  The returned list is the set
of file ids whose tasks were asked to stop. -/
def cancel_transfer (m : TransferManager) (tid : Nat) :
    Except String (TransferManager × List String) :=
  match mgrLookup m tid with
  | none => .error "transfer not found"
  | some xfer =>
    .ok ({ m with transfers := m.transfers.filter fun e => !(e.1 == tid) }, xfer.files)

/-- `Service::cancel_all`: look the transfer up (erring with `BadTransfer`
when absent), then call `cancel_transfer`; an error from `cancel_transfer`
is only logged and the call still returns `Ok`. -/
def cancel_all (m : TransferManager) (transfer_id : Nat) :
    Except ServiceError (TransferManager × List String) :=
  match mgrLookup m transfer_id with
  | none => .error .badTransfer
  | some _ =>
    match cancel_transfer m transfer_id with
    | .error _ => .ok (m, [])
    | .ok (m', stopped) => .ok (m', stopped)

/-- Modelled from the spec: `manager.rs` is not among the sources.  Per the
spec (§4.5), `reject_file(uuid, file_id)` returns `false` if the file is
already rejected (idempotent no-op signalling) and otherwise records the
rejection and returns `true`; it errs when the transfer is unknown. -/
def reject_file (m : TransferManager) (tid : Nat) (fid : String) :
    Except ServiceError (TransferManager × Bool) :=
  match mgrLookup m tid with
  | none => .error .badTransfer
  | some _ =>
    if (tid, fid) ∈ m.rejected then .ok (m, false)
    else .ok ({ m with rejected := m.rejected ++ [(tid, fid)] }, true)

/-- `Service::reject`: under the manager lock, call `reject_file`; on
`false` return `Err(Rejected)` without sending anything; on `true` send one
`Reject{file}` request to the transfer's connection.  The returned list is
the wire requests sent; each such request leads the peer-facing handler to
emit at most one Rejected journal event for the file. -/
def service_reject (m : TransferManager) (transfer_id : Nat) (file : String) :
    Except ServiceError (TransferManager × List String) :=
  match reject_file m transfer_id file with
  | .error e => .error e
  | .ok (_, false) => .error .rejected
  | .ok (m', true) => .ok (m', [file])

/-- The `Reject` wire requests resulting from one `Service::reject` call
(none when the call returned an error before sending). -/
def reject_requests : Except ServiceError (TransferManager × List String) → List String
  | .ok (_, rs) => rs
  | .error _ => []

/-- The manager state after a `Service::reject` call (unchanged when the
call failed). -/
def manager_after (m : TransferManager) :
    Except ServiceError (TransferManager × List String) → TransferManager
  | .ok (m', _) => m'
  | .error _ => m

/-! # Theorems -/

/-- C10: every started-state row written to the journal records a byte
count of zero — `insert_outgoing_path_started_state` and
`insert_incoming_path_started_state` hardcode `bytes_sent` /
`bytes_received` to `0` (they do not even take a byte count), so even for a
download resumed at a non-zero offset the persisted Started event reports
0 bytes. -/
theorem c10_started_states_record_zero_bytes (now transfer_id : Nat)
    (fid base_dir : String) (s : Storage) :
    (∀ r ∈ (insert_outgoing_path_started_state now transfer_id fid
        s).outgoing_path_started_states,
      r ∈ s.outgoing_path_started_states ∨ r.bytes_sent = 0)
    ∧ (∀ r ∈ (insert_incoming_path_started_state now transfer_id fid base_dir
        s).incoming_path_started_states,
      r ∈ s.incoming_path_started_states ∨ r.bytes_received = 0) := by
  constructor
  · intro r hr
    unfold insert_outgoing_path_started_state withResolved at hr
    cases h : resolve_outgoing_path_id s transfer_id fid with
    | none => rw [h] at hr; exact Or.inl hr
    | some pid =>
      rw [h] at hr
      simp only [List.mem_append, List.mem_singleton] at hr
      rcases hr with hr | hr
      · exact Or.inl hr
      · subst hr; exact Or.inr rfl
  · intro r hr
    unfold insert_incoming_path_started_state withResolved at hr
    cases h : resolve_incoming_path_id s transfer_id fid with
    | none => rw [h] at hr; exact Or.inl hr
    | some pid =>
      rw [h] at hr
      simp only [List.mem_append, List.mem_singleton] at hr
      rcases hr with hr | hr
      · exact Or.inl hr
      · subst hr; exact Or.inr rfl

/-- C3: every path-state insert called with a `(transfer_id, path_hash)`
pair that has no matching file row inserts nothing and returns success: the
storage is left entirely unchanged, and no error is reported (the insert
operations are total functions into `Storage`). -/
theorem c3_unknown_file_inserts_are_noops (s : Storage) (now transfer_id : Nat)
    (fid base_dir final_path : String) (by_peer : Bool) (error : Nat) (bytes : Int)
    (hout : resolve_outgoing_path_id s transfer_id fid = none)
    (hinc : resolve_incoming_path_id s transfer_id fid = none) :
    insert_outgoing_path_pending_state now transfer_id fid s = s
    ∧ insert_incoming_path_pending_state now transfer_id fid s = s
    ∧ insert_outgoing_path_started_state now transfer_id fid s = s
    ∧ insert_incoming_path_started_state now transfer_id fid base_dir s = s
    ∧ insert_outgoing_path_cancel_state now transfer_id fid by_peer bytes s = s
    ∧ insert_incoming_path_cancel_state now transfer_id fid by_peer bytes s = s
    ∧ insert_outgoing_path_failed_state now transfer_id fid error bytes s = s
    ∧ insert_incoming_path_failed_state now transfer_id fid error bytes s = s
    ∧ insert_outgoing_path_completed_state now transfer_id fid s = s
    ∧ insert_incoming_path_completed_state now transfer_id fid final_path s = s
    ∧ insert_outgoing_path_reject_state now transfer_id fid by_peer s = s
    ∧ insert_incoming_path_reject_state now transfer_id fid by_peer s = s := by
  simp [insert_outgoing_path_pending_state, insert_incoming_path_pending_state,
    insert_outgoing_path_started_state, insert_incoming_path_started_state,
    insert_outgoing_path_cancel_state, insert_incoming_path_cancel_state,
    insert_outgoing_path_failed_state, insert_incoming_path_failed_state,
    insert_outgoing_path_completed_state, insert_incoming_path_completed_state,
    insert_outgoing_path_reject_state, insert_incoming_path_reject_state,
    withResolved, hout, hinc]

/-- Witness for C3 at a concrete input: the empty storage resolves nothing,
and all twelve inserts leave it unchanged. -/
theorem c3_witness :
    resolve_outgoing_path_id {} 1 "f" = none
    ∧ resolve_incoming_path_id {} 1 "f" = none
    ∧ (insert_outgoing_path_pending_state 9 1 "f" {} = {}
      ∧ insert_incoming_path_pending_state 9 1 "f" {} = {}
      ∧ insert_outgoing_path_started_state 9 1 "f" {} = {}
      ∧ insert_incoming_path_started_state 9 1 "f" "b" {} = {}
      ∧ insert_outgoing_path_cancel_state 9 1 "f" true 7 {} = {}
      ∧ insert_incoming_path_cancel_state 9 1 "f" true 7 {} = {}
      ∧ insert_outgoing_path_failed_state 9 1 "f" 3 7 {} = {}
      ∧ insert_incoming_path_failed_state 9 1 "f" 3 7 {} = {}
      ∧ insert_outgoing_path_completed_state 9 1 "f" {} = {}
      ∧ insert_incoming_path_completed_state 9 1 "f" "p" {} = {}
      ∧ insert_outgoing_path_reject_state 9 1 "f" true {} = {}
      ∧ insert_incoming_path_reject_state 9 1 "f" true {} = {}) :=
  ⟨rfl, rfl, c3_unknown_file_inserts_are_noops {} 9 1 "f" "b" "p" true 3 7 rfl rfl⟩

/-- Unfolding of the outgoing delete predicate into propositional form. -/
theorem out_delete_pred_iff (s : Storage) (t : Nat) (f : String) (r : OutgoingPathRow) :
    out_delete_pred s t f r = true ↔
      r.transfer_id = t ∧ r.path_hash = f ∧
        ∃ q ∈ s.outgoing_path_reject_states, q.path_id = r.id := by
  simp [out_delete_pred, and_assoc]

/-- Unfolding of the incoming delete predicate into propositional form. -/
theorem in_delete_pred_iff (s : Storage) (t : Nat) (f : String) (r : IncomingPathRow) :
    in_delete_pred s t f r = true ↔
      r.transfer_id = t ∧ r.path_hash = f ∧
        ∃ q ∈ s.incoming_path_reject_states, q.path_id = r.id := by
  simp [in_delete_pred, and_assoc]

/-- C2: `remove_transfer_file(t, f)` returns the removed result iff a
Rejected event exists for `(t, f)` (a file row for `(t, f)` whose id is
among the reject-state rows, in either direction); when no such row exists
it returns not-found and leaves the storage unchanged; and when rows are
deleted from both the outgoing and incoming tables it logs the warning but
still returns success. -/
theorem c2_remove_transfer_file (s : Storage) (t : Nat) (f : String) :
    ((remove_transfer_file s t f).1 = some () ↔
      (∃ r ∈ s.outgoing_paths, r.transfer_id = t ∧ r.path_hash = f ∧
        ∃ q ∈ s.outgoing_path_reject_states, q.path_id = r.id)
      ∨ (∃ r ∈ s.incoming_paths, r.transfer_id = t ∧ r.path_hash = f ∧
        ∃ q ∈ s.incoming_path_reject_states, q.path_id = r.id))
    ∧ ((remove_transfer_file s t f).1 = none → (remove_transfer_file s t f).2.2 = s)
    ∧ (((∃ r ∈ s.outgoing_paths, r.transfer_id = t ∧ r.path_hash = f ∧
          ∃ q ∈ s.outgoing_path_reject_states, q.path_id = r.id)
        ∧ (∃ r ∈ s.incoming_paths, r.transfer_id = t ∧ r.path_hash = f ∧
          ∃ q ∈ s.incoming_path_reject_states, q.path_id = r.id)) →
        (remove_transfer_file s t f).2.1 = true
        ∧ (remove_transfer_file s t f).1 = some ()) := by
  classical
  set oc := (List.filter (out_delete_pred s t f) s.outgoing_paths).length with hoc
  set ic := (List.filter (in_delete_pred s t f) s.incoming_paths).length with hic
  have hocq : 0 < oc ↔
      ∃ r ∈ s.outgoing_paths, r.transfer_id = t ∧ r.path_hash = f ∧
        ∃ q ∈ s.outgoing_path_reject_states, q.path_id = r.id := by
    rw [hoc, ← List.countP_eq_length_filter, List.countP_pos_iff]
    constructor
    · rintro ⟨r, hr, hp⟩; exact ⟨r, hr, (out_delete_pred_iff s t f r).1 hp⟩
    · rintro ⟨r, hr, hp⟩; exact ⟨r, hr, (out_delete_pred_iff s t f r).2 hp⟩
  have hicq : 0 < ic ↔
      ∃ r ∈ s.incoming_paths, r.transfer_id = t ∧ r.path_hash = f ∧
        ∃ q ∈ s.incoming_path_reject_states, q.path_id = r.id := by
    rw [hic, ← List.countP_eq_length_filter, List.countP_pos_iff]
    constructor
    · rintro ⟨r, hr, hp⟩; exact ⟨r, hr, (in_delete_pred_iff s t f r).1 hp⟩
    · rintro ⟨r, hr, hp⟩; exact ⟨r, hr, (in_delete_pred_iff s t f r).2 hp⟩
  have hres_none : oc + ic = 0 → (remove_transfer_file s t f).1 = none := by
    intro h0
    simp [remove_transfer_file, ← hoc, ← hic, h0]
  have hres_some : oc + ic ≠ 0 → (remove_transfer_file s t f).1 = some () := by
    intro h0
    by_cases h1 : oc + ic = 1
    · simp only [remove_transfer_file, ← hoc, ← hic, h1]
      norm_num
    · simp only [remove_transfer_file, ← hoc, ← hic]
      rw [if_neg h0, if_neg h1]
  refine ⟨?_, ?_, ?_⟩
  · constructor
    · intro hsome
      by_contra hq
      rw [not_or] at hq
      have h0 : oc + ic = 0 := by
        have h1 : ¬ 0 < oc := fun h => hq.1 (hocq.1 h)
        have h2 : ¬ 0 < ic := fun h => hq.2 (hicq.1 h)
        omega
      rw [hres_none h0] at hsome
      exact Option.noConfusion hsome
    · intro hq
      apply hres_some
      rcases hq with hq | hq
      · have := hocq.2 hq; omega
      · have := hicq.2 hq; omega
  · intro hnone
    have h0 : oc + ic = 0 := by
      by_contra h0
      rw [hres_some h0] at hnone
      exact Option.noConfusion hnone
    have hfo : List.filter (fun r => !(out_delete_pred s t f r)) s.outgoing_paths =
        s.outgoing_paths := by
      apply List.filter_eq_self.mpr
      intro a ha
      have : List.filter (out_delete_pred s t f) s.outgoing_paths = [] := by
        apply List.length_eq_zero.1
        omega
      have hna := List.filter_eq_nil_iff.1 this a ha
      simp only [Bool.not_eq_true'] at hna ⊢
      simp [hna]
    have hfi : List.filter (fun r => !(in_delete_pred s t f r)) s.incoming_paths =
        s.incoming_paths := by
      apply List.filter_eq_self.mpr
      intro a ha
      have : List.filter (in_delete_pred s t f) s.incoming_paths = [] := by
        apply List.length_eq_zero.1
        omega
      have hna := List.filter_eq_nil_iff.1 this a ha
      simp only [Bool.not_eq_true'] at hna ⊢
      simp [hna]
    have h22 : (remove_transfer_file s t f).2.2 =
        { s with
          outgoing_paths :=
            List.filter (fun r => !(out_delete_pred s t f r)) s.outgoing_paths
          incoming_paths :=
            List.filter (fun r => !(in_delete_pred s t f r)) s.incoming_paths } := by
      simp only [remove_transfer_file]
      split_ifs <;> rfl
    rw [h22, hfo, hfi]
  · intro ⟨hqo, hqi⟩
    have h1 : 0 < oc := hocq.2 hqo
    have h2 : 0 < ic := hicq.2 hqi
    have h0 : oc + ic ≠ 0 := by omega
    have h1' : oc + ic ≠ 1 := by omega
    constructor
    · simp only [remove_transfer_file, ← hoc, ← hic]
      rw [if_neg h0, if_neg h1']
    · exact hres_some h0

/-- Witness for C2 at a concrete input: a storage holding one rejected
outgoing row and one rejected incoming row for the same `(transfer, file)`;
the remove deletes from both tables, warns, and still returns success. -/
def c2sample : Storage :=
  { outgoing_paths :=
      [{ id := 0
         transfer_id := 1
         relative_path := "a"
         path_hash := "f"
         bytes := 1
         base_path := "/d"
         created_at := 0 }]
    incoming_paths :=
      [{ id := 0
         transfer_id := 1
         relative_path := "a"
         path_hash := "f"
         bytes := 1
         checksum := none
         created_at := 0 }]
    outgoing_path_reject_states := [{ path_id := 0, by_peer := false, created_at := 2 }]
    incoming_path_reject_states := [{ path_id := 0, by_peer := false, created_at := 2 }] }

/-- Witness for C2: the both-directions case at `c2sample`. -/
theorem c2_witness :
    ((∃ r ∈ c2sample.outgoing_paths, r.transfer_id = 1 ∧ r.path_hash = "f" ∧
        ∃ q ∈ c2sample.outgoing_path_reject_states, q.path_id = r.id)
      ∧ (∃ r ∈ c2sample.incoming_paths, r.transfer_id = 1 ∧ r.path_hash = "f" ∧
        ∃ q ∈ c2sample.incoming_path_reject_states, q.path_id = r.id))
    ∧ ((remove_transfer_file c2sample 1 "f").2.1 = true
      ∧ (remove_transfer_file c2sample 1 "f").1 = some ()) :=
  ⟨by simp [c2sample], (c2_remove_transfer_file c2sample 1 "f").2.2 (by simp [c2sample])⟩

/-- C5: chunk reads from a `FileReader` — each successful chunk is at most
1 MiB; a read after the modification time changed fails `FileModified`; a
read pushing the cumulative count past the size recorded at open fails
`MismatchedSize`; EOF with a cumulative count different from the recorded
size fails `MismatchedSize`; EOF at exactly the recorded size ends the
stream without error. -/
theorem c5_read_chunk_contract :
    (∀ (s : FileReaderState) (c : Nat) (s' : FileReaderState),
        read_chunk s = .ok (some c, s') → c ≤ CHUNK_SIZE)
    ∧ (∀ s : FileReaderState, s.curMtime ≠ s.metaMtime →
        read_chunk s = .error .fileModified)
    ∧ (∀ (s : FileReaderState) (m : Nat) (rest : List Nat),
        s.curMtime = s.metaMtime → s.reads = m :: rest → 0 < min m CHUNK_SIZE →
        s.metaLen < s.bytesRead + min m CHUNK_SIZE →
        read_chunk s = .error .mismatchedSize)
    ∧ (∀ s : FileReaderState, s.curMtime = s.metaMtime → s.reads = [] →
        s.bytesRead ≠ s.metaLen → read_chunk s = .error .mismatchedSize)
    ∧ (∀ s : FileReaderState, s.curMtime = s.metaMtime → s.reads = [] →
        s.bytesRead = s.metaLen →
        ∃ s' : FileReaderState, read_chunk s = .ok (none, s')) := by
  refine ⟨?_, ?_, ?_, ?_, ?_⟩
  · intro s c s' h
    unfold read_chunk at h
    split_ifs at h with h1 h2 h3
    · exact absurd h (by simp)
    · simp only [Except.ok.injEq, Prod.mk.injEq, Option.some.injEq] at h
      obtain ⟨hc, -⟩ := h
      rw [← hc]
      cases s.reads with
      | nil => exact Nat.zero_le _
      | cons m rest =>
        simp only [inner_read]
        exact Nat.min_le_right _ _
  · intro s h
    unfold read_chunk
    rw [if_pos h]
  · intro s m rest hmt hr hpos hover
    have hn : inner_read s.reads = min m CHUNK_SIZE := by rw [hr]; rfl
    unfold read_chunk
    rw [if_neg (by simp [hmt]), hn, if_neg (by omega), if_pos hover]
  · intro s hmt hr hne
    have hn : inner_read s.reads = 0 := by rw [hr]; rfl
    unfold read_chunk
    rw [if_neg (by simp [hmt]), hn, if_pos rfl, if_pos (by simpa using hne)]
  · intro s hmt hr heq
    have hn : inner_read s.reads = 0 := by rw [hr]; rfl
    unfold read_chunk
    rw [if_neg (by simp [hmt]), hn, if_pos rfl, if_neg (by simpa using heq)]
    exact ⟨_, rfl⟩

/-- Witness for C5 at concrete reader states, one per conjunct. -/
theorem c5_witness :
    3 ≤ CHUNK_SIZE
    ∧ read_chunk ⟨10, 5, 7, [3], 0⟩ = .error .fileModified
    ∧ read_chunk ⟨10, 5, 5, [20], 0⟩ = .error .mismatchedSize
    ∧ read_chunk ⟨10, 5, 5, [], 4⟩ = .error .mismatchedSize
    ∧ (∃ s' : FileReaderState, read_chunk ⟨10, 5, 5, [], 10⟩ = .ok (none, s')) :=
  ⟨c5_read_chunk_contract.1 ⟨10, 5, 5, [3], 0⟩ 3 ⟨10, 5, 5, [], 3⟩ rfl,
   c5_read_chunk_contract.2.1 ⟨10, 5, 7, [3], 0⟩ (by decide),
   c5_read_chunk_contract.2.2.1 ⟨10, 5, 5, [20], 0⟩ 20 [] rfl rfl (by decide) (by decide),
   c5_read_chunk_contract.2.2.2.1 ⟨10, 5, 5, [], 4⟩ rfl rfl (by decide),
   c5_read_chunk_contract.2.2.2.2 ⟨10, 5, 5, [], 10⟩ rfl rfl rfl⟩

/-- C8: the dispatcher translates a `Progress` event into a pure map update
with no journal append; a per-file `Cancel` or `Failed` event removes the
map entry and passes the last stored byte count (default `0`) to the
corresponding journal append. -/
theorem c8_dispatch_progress_cancel_failed (m : ProgressMap) (tt : TransferType)
    (tid : Nat) (fid : String) (by_peer : Bool) (error_code : Nat) (p : Int) :
    handle_event m (.fileProgress tid fid p) = (progressSet m (tid, fid) p, [])
    ∧ handle_event m (.fileCanceled tt tid fid by_peer) =
        (progressErase m (tid, fid),
          [match tt with
            | .incoming => .insertIncomingPathCancelState tid fid by_peer
                ((progressLookup m (tid, fid)).getD 0)
            | .outgoing => .insertOutgoingPathCancelState tid fid by_peer
                ((progressLookup m (tid, fid)).getD 0)])
    ∧ handle_event m (.fileFailed tt tid fid error_code) =
        (progressErase m (tid, fid),
          [match tt with
            | .incoming => .insertIncomingPathFailedState tid fid error_code
                ((progressLookup m (tid, fid)).getD 0)
            | .outgoing => .insertOutgoingPathFailedState tid fid error_code
                ((progressLookup m (tid, fid)).getD 0)]) := by
  refine ⟨rfl, ?_, ?_⟩ <;> cases tt <;> simp [handle_event, get_file_progress]

/-- Counterexample for C4 as stated.  With a partial temp file of size 3
and local digest 7, a target of size 10, and a `ReportChsum` whose checksum
equals the local digest of the partial (7) but whose `limit` (5) differs
from the partial size, the claim says the download starts at offset 3 (the
partial size); the code starts at offset 0, because `Downloader::init`
additionally requires `report.limit == meta.len()`. -/
theorem c4_counterexample :
    (downloader_init (some ⟨3, 7⟩) 10 ⟨"f", 5, 7⟩ 0).offset = 0
    ∧ (ReportChsum.mk "f" 5 7).checksum = (TmpFileState.mk 3 7).csum
    ∧ (TmpFileState.mk 3 7).len < 10
    ∧ (downloader_init (some ⟨3, 7⟩) 10 ⟨"f", 5, 7⟩ 0).offset ≠ (TmpFileState.mk 3 7).len := by
  refine ⟨rfl, rfl, by decide, by decide⟩

/-- C4 (amended): on download start against an existing temp file, when the
temp size is below the target the receiver requests `ReqChsum` with limit
equal to the partial size and starts at offset = partial size when the
report echoes `limit` equal to the partial size **and** its checksum equals
the local digest of the partial, otherwise at offset 0; when the sizes are
equal it keeps the full offset iff the cached full digest equals the local
full digest; when the temp file is larger it starts at offset 0. -/
theorem c4_resume_offsets (t : TmpFileState) (target : Nat) (report : ReportChsum)
    (cached : Nat) :
    (t.len < target →
      (downloader_init (some t) target report cached).req_limit = some t.len
      ∧ ((report.limit = t.len ∧ report.checksum = t.csum) →
          (downloader_init (some t) target report cached).offset = t.len)
      ∧ (¬(report.limit = t.len ∧ report.checksum = t.csum) →
          (downloader_init (some t) target report cached).offset = 0))
    ∧ (t.len = target →
      (downloader_init (some t) target report cached).req_limit = none
      ∧ (cached = t.csum → (downloader_init (some t) target report cached).offset = t.len)
      ∧ (cached ≠ t.csum → (downloader_init (some t) target report cached).offset = 0))
    ∧ (target < t.len →
      (downloader_init (some t) target report cached).req_limit = none
      ∧ (downloader_init (some t) target report cached).offset = 0) := by
  simp only [downloader_init]
  refine ⟨?_, ?_, ?_⟩
  · intro hlt
    rw [if_pos hlt]
    exact ⟨rfl, fun hc => by rw [if_pos hc], fun hc => by rw [if_neg hc]⟩
  · intro heq
    rw [if_neg (by omega), if_pos heq]
    exact ⟨rfl, fun hc => by rw [if_pos hc], fun hc => by rw [if_neg hc]⟩
  · intro hgt
    rw [if_neg (by omega), if_neg (by omega)]
    exact ⟨rfl, rfl⟩

/-- Witness for C4 (amended) at concrete inputs, one per branch. -/
theorem c4_witness :
    (TmpFileState.mk 3 7).len < 10
    ∧ (downloader_init (some ⟨3, 7⟩) 10 ⟨"f", 3, 7⟩ 0).req_limit = some 3
    ∧ (downloader_init (some ⟨3, 7⟩) 10 ⟨"f", 3, 7⟩ 0).offset = 3
    ∧ (downloader_init (some ⟨5, 9⟩) 5 ⟨"f", 3, 7⟩ 9).offset = 5
    ∧ (downloader_init (some ⟨6, 9⟩) 5 ⟨"f", 3, 7⟩ 9).offset = 0 :=
  have h1 := (c4_resume_offsets ⟨3, 7⟩ 10 ⟨"f", 3, 7⟩ 0).1 (by decide)
  have h2 := (c4_resume_offsets ⟨5, 9⟩ 5 ⟨"f", 3, 7⟩ 9).2.1 rfl
  have h3 := (c4_resume_offsets ⟨6, 9⟩ 5 ⟨"f", 3, 7⟩ 9).2.2 (by decide)
  ⟨by decide, h1.1, h1.2.1 (by decide), h2.2.1 rfl, h3.2⟩

/-! ### Helper lemmas about checksum cell maps -/

/-- Computation rule for `cellLookup` on a cons cell. -/
theorem cellLookup_cons (a : String) (b : Option Nat) (rest : CellMap) (fid : String) :
    cellLookup ((a, b) :: rest) fid =
      if a == fid then some b else cellLookup rest fid := by
  by_cases haf : (a == fid) = true
  · simp [cellLookup, haf]
  · simp [cellLookup, haf]

/-- Updating the cell of key `k` does not change lookups of other keys. -/
theorem cellLookup_map_update_ne (cells : CellMap) (f : Option Nat → Option Nat)
    (k fid : String) (h : fid ≠ k) :
    cellLookup (cells.map fun e => if e.1 == k then (e.1, f e.2) else e) fid =
      cellLookup cells fid := by
  induction cells with
  | nil => rfl
  | cons e rest ih =>
    obtain ⟨a, b⟩ := e
    have ih' := ih
    simp only [beq_iff_eq] at ih'
    by_cases hak : (a == k) = true
    · have hak' : a = k := by simpa using hak
      have haf : ¬a = fid := fun hc => h (hc ▸ hak')
      have hkf : ¬k = fid := fun hc => h hc.symm
      simp [hak', haf, hkf, cellLookup_cons, ih']
    · have hak' : ¬a = k := by simpa using hak
      simp [hak', cellLookup_cons, ih']

/-- Updating the cell of key `k` maps its looked-up value through `f`. -/
theorem cellLookup_map_update_self (cells : CellMap) (f : Option Nat → Option Nat)
    (k : String) :
    cellLookup (cells.map fun e => if e.1 == k then (e.1, f e.2) else e) k =
      (cellLookup cells k).map f := by
  induction cells with
  | nil => rfl
  | cons e rest ih =>
    obtain ⟨a, b⟩ := e
    have ih' := ih
    simp only [beq_iff_eq] at ih'
    by_cases hak : (a == k) = true
    · have hak' : a = k := by simpa using hak
      subst hak'
      simp [cellLookup_cons, ih']
    · have hak' : ¬a = k := by simpa using hak
      simp [hak', cellLookup_cons, ih']

/-- `AsyncCell::set` on the cell of `k` seen through lookups of other keys. -/
theorem cellLookup_cellSet_ne (cells : CellMap) (k : String) (v : Nat) (fid : String)
    (h : fid ≠ k) : cellLookup (cellSet cells k v) fid = cellLookup cells fid :=
  cellLookup_map_update_ne cells (fun _ => some v) k fid h

/-- `AsyncCell::set` on the cell of `k` seen through a lookup of `k`. -/
theorem cellLookup_cellSet_self (cells : CellMap) (k : String) (v : Nat) :
    cellLookup (cellSet cells k v) k = (cellLookup cells k).map fun _ => some v :=
  cellLookup_map_update_self cells (fun _ => some v) k

/-- `AsyncCell::or_set` seen through lookups of other keys. -/
theorem cellLookup_cellOrSet_ne (cells : CellMap) (k : String) (v : Nat) (fid : String)
    (h : fid ≠ k) : cellLookup (cellOrSet cells k v) fid = cellLookup cells fid :=
  cellLookup_map_update_ne cells (fun c => or_set c v) k fid h

/-- `AsyncCell::or_set` seen through a lookup of its own key. -/
theorem cellLookup_cellOrSet_self (cells : CellMap) (k : String) (v : Nat) :
    cellLookup (cellOrSet cells k v) k = (cellLookup cells k).map fun c => or_set c v :=
  cellLookup_map_update_self cells (fun c => or_set c v) k

/-- Appending a fresh single entry: lookups of other keys are unchanged. -/
theorem cellLookup_append_single_ne (cells : CellMap) (k : String) (v : Option Nat)
    (fid : String) (h : fid ≠ k) :
    cellLookup (cells ++ [(k, v)]) fid = cellLookup cells fid := by
  induction cells with
  | nil =>
    have hkf : (k == fid) = false := beq_eq_false_iff_ne.mpr fun hc => h hc.symm
    simp [cellLookup_cons, hkf, cellLookup]
  | cons e rest ih =>
    obtain ⟨a, b⟩ := e
    simp only [List.cons_append, cellLookup_cons, ih]

/-- Appending `(k, v)` when `k` has no cell yet makes its lookup `v`. -/
theorem cellLookup_append_single_eq (cells : CellMap) (k : String) (v : Option Nat)
    (h : cellLookup cells k = none) :
    cellLookup (cells ++ [(k, v)]) k = some v := by
  induction cells with
  | nil => simp [cellLookup_cons, cellLookup]
  | cons e rest ih =>
    obtain ⟨a, b⟩ := e
    rw [cellLookup_cons] at h
    by_cases hak : (a == k) = true
    · rw [if_pos hak] at h
      exact absurd h (by simp)
    · rw [if_neg hak] at h
      rw [List.cons_append, cellLookup_cons, if_neg hak]
      exact ih h

/-- One upgrade iteration does not change cells of other keys. -/
theorem upgrade_step_lookup_ne (files : XferFiles) (acc : UpgradeAcc)
    (pc : String × Option Nat) (fid : String) (h : fid ≠ pc.1) :
    cellLookup (upgrade_step files acc pc).checksums fid =
      cellLookup acc.checksums fid := by
  obtain ⟨k, v⟩ := pc
  replace h : fid ≠ k := h
  cases hx : xferLookup files k with
  | none => simp only [upgrade_step, hx]
  | some sz =>
    cases v with
    | some c =>
      simp only [upgrade_step, hx]
      rw [cellLookup_cellSet_ne _ _ _ _ h]
      by_cases hp : (List.find? (fun e => e.1 == k) acc.checksums).isSome = true
      · rw [if_pos hp]
      · rw [if_neg hp, cellLookup_append_single_ne _ _ _ _ h]
    | none =>
      simp only [upgrade_step, hx]
      by_cases hp : (List.find? (fun e => e.1 == k) acc.checksums).isSome = true
      · rw [if_pos hp]
      · rw [if_neg hp, cellLookup_append_single_ne _ _ _ _ h]

/-- Folding the upgrade over entries with other keys leaves a lookup
unchanged. -/
theorem upgrade_foldl_lookup_ne (files : XferFiles) (l : List (String × Option Nat))
    (acc : UpgradeAcc) (fid : String) (h : fid ∉ l.map Prod.fst) :
    cellLookup (List.foldl (upgrade_step files) acc l).checksums fid =
      cellLookup acc.checksums fid := by
  induction l generalizing acc with
  | nil => rfl
  | cons p rest ih =>
    simp only [List.map_cons, List.mem_cons] at h
    rw [List.foldl_cons, ih _ (fun hc => h (Or.inr hc)),
      upgrade_step_lookup_ne _ _ _ _ (fun hc => h (Or.inl hc))]

/-- The `to_fetch` list only grows across the upgrade fold. -/
theorem upgrade_foldl_to_fetch_prefix (files : XferFiles)
    (l : List (String × Option Nat)) (acc : UpgradeAcc) :
    ∃ ext : List String,
      (List.foldl (upgrade_step files) acc l).to_fetch = acc.to_fetch ++ ext := by
  induction l generalizing acc with
  | nil => exact ⟨[], by simp⟩
  | cons p rest ih =>
    rw [List.foldl_cons]
    obtain ⟨ext, hext⟩ := ih (upgrade_step files acc p)
    obtain ⟨k, v⟩ := p
    cases hx : xferLookup files k with
    | none =>
      refine ⟨ext, ?_⟩
      rw [hext]
      simp only [upgrade_step, hx]
    | some sz =>
      cases v with
      | some c =>
        refine ⟨ext, ?_⟩
        rw [hext]
        simp only [upgrade_step, hx]
      | none =>
        refine ⟨k :: ext, ?_⟩
        rw [hext]
        simp only [upgrade_step, hx]
        simp

/-- C9: checksum cells are single-assignment.  On upgrade, the cell of
every incoming file with a persisted checksum is populated from the
journal; a full-size `ReqChsum` is sent for every file whose cell is left
empty; and `on_checksum` never changes a cell that already holds a value
(a full-limit report is applied with `or_set`, which only fills empty
cells). -/
theorem c9_checksum_cells_single_assignment :
    (∀ (files : XferFiles) (persisted : List (String × Option Nat)) (fid : String)
        (c sz : Nat),
        (persisted.map Prod.fst).Nodup → (fid, some c) ∈ persisted →
        xferLookup files fid = some sz →
        cellLookup (upgrade_cells files persisted).checksums fid = some (some c))
    ∧ (∀ (files : XferFiles) (persisted : List (String × Option Nat)) (fid : String)
        (sz : Nat),
        (fid, none) ∈ persisted → xferLookup files fid = some sz →
        (fid, sz) ∈ req_checksum_msgs files (upgrade_cells files persisted))
    ∧ (∀ (files : XferFiles) (cells : CellMap) (report : ReportChsum) (fid : String)
        (c : Nat),
        cellLookup cells fid = some (some c) →
        cellLookup (on_checksum files cells report) fid = some (some c)) := by
  refine ⟨?_, ?_, ?_⟩
  · intro files persisted fid c sz hnodup hmem hfiles
    obtain ⟨l1, l2, rfl⟩ := List.append_of_mem hmem
    have hmap : (l1 ++ (fid, some c) :: l2).map Prod.fst =
        l1.map Prod.fst ++ fid :: l2.map Prod.fst := by simp
    rw [hmap] at hnodup
    have h2 : fid ∉ l2.map Prod.fst :=
      (List.nodup_cons.1 (List.Nodup.of_append_right hnodup)).1
    unfold upgrade_cells
    rw [List.foldl_append, List.foldl_cons, upgrade_foldl_lookup_ne _ _ _ _ h2]
    set acc1 := List.foldl (upgrade_step files) ⟨[], []⟩ l1 with hacc1
    simp only [upgrade_step, hfiles]
    rw [cellLookup_cellSet_self]
    by_cases hp : (List.find? (fun e => e.1 == fid) acc1.checksums).isSome = true
    · rw [if_pos hp]
      obtain ⟨e, he⟩ := Option.isSome_iff_exists.1 hp
      simp [cellLookup, he]
    · rw [if_neg hp]
      have hnone : cellLookup acc1.checksums fid = none := by
        simp only [cellLookup]
        cases hf : List.find? (fun e => e.1 == fid) acc1.checksums
        · rfl
        · rw [hf] at hp; simp at hp
      rw [cellLookup_append_single_eq _ _ _ hnone]
      rfl
  · intro files persisted fid sz hmem hfiles
    obtain ⟨l1, l2, rfl⟩ := List.append_of_mem hmem
    unfold upgrade_cells
    rw [List.foldl_append, List.foldl_cons]
    have hstep : (upgrade_step files (List.foldl (upgrade_step files) ⟨[], []⟩ l1)
        (fid, none)).to_fetch =
        (List.foldl (upgrade_step files) ⟨[], []⟩ l1).to_fetch ++ [fid] := by
      simp only [upgrade_step, hfiles]
    obtain ⟨ext, hext⟩ := upgrade_foldl_to_fetch_prefix files l2
      (upgrade_step files (List.foldl (upgrade_step files) ⟨[], []⟩ l1) (fid, none))
    have hfid_mem : fid ∈ (List.foldl (upgrade_step files)
        (upgrade_step files (List.foldl (upgrade_step files) ⟨[], []⟩ l1) (fid, none))
        l2).to_fetch := by
      rw [hext, hstep]
      simp
    unfold req_checksum_msgs
    rw [List.mem_filterMap]
    exact ⟨fid, hfid_mem, by simp [hfiles]⟩
  · intro files cells report fid c h
    cases hx : xferLookup files report.file with
    | none => simpa only [on_checksum, hx] using h
    | some size =>
      by_cases hl : report.limit = size
      · simp only [on_checksum, hx, if_pos hl]
        by_cases hf : fid = report.file
        · subst hf
          rw [cellLookup_cellOrSet_self, h]
          rfl
        · rw [cellLookup_cellOrSet_ne _ _ _ _ hf]
          exact h
      · simpa only [on_checksum, hx, if_neg hl] using h

/-- Witness for C9 at a concrete transfer: one file with a persisted
checksum, one without; the populated cell reads back, the empty cell is
fetched at full size, and a later full-limit report does not change the
populated cell. -/
theorem c9_witness :
    ((([("a", some 7), ("b", (none : Option Nat))] : List (String × Option Nat)).map
        Prod.fst).Nodup
      ∧ (("a", some 7) ∈ [("a", some 7), ("b", (none : Option Nat))])
      ∧ xferLookup [("a", 100), ("b", 200)] "a" = some 100
      ∧ cellLookup (upgrade_cells [("a", 100), ("b", 200)]
          [("a", some 7), ("b", none)]).checksums "a" = some (some 7))
    ∧ ((("b", (none : Option Nat)) ∈ [("a", some 7), ("b", (none : Option Nat))])
      ∧ xferLookup [("a", 100), ("b", 200)] "b" = some 200
      ∧ ("b", 200) ∈ req_checksum_msgs [("a", 100), ("b", 200)]
          (upgrade_cells [("a", 100), ("b", 200)] [("a", some 7), ("b", none)]))
    ∧ (cellLookup [("a", some 7)] "a" = some (some 7)
      ∧ cellLookup (on_checksum [("a", 100)] [("a", some 7)] ⟨"a", 100, 9⟩) "a" =
          some (some 7)) :=
  ⟨⟨by decide, by decide, by decide,
    c9_checksum_cells_single_assignment.1 [("a", 100), ("b", 200)]
      [("a", some 7), ("b", none)] "a" 7 100 (by decide) (by decide) (by decide)⟩,
   ⟨by decide, by decide,
    c9_checksum_cells_single_assignment.2.1 [("a", 100), ("b", 200)]
      [("a", some 7), ("b", none)] "b" 200 (by decide) (by decide)⟩,
   ⟨by decide,
    c9_checksum_cells_single_assignment.2.2 [("a", 100)] [("a", some 7)] ⟨"a", 100, 9⟩
      "a" 7 (by decide)⟩⟩

/-- C6: `cancel_all(transfer_id)` has exactly two outcomes — either the
transfer is unknown and `BadTransfer` is returned, or every file task of
the transfer is asked to stop (the returned list of stopped tasks is the
transfer's whole file list) and the call succeeds.  In particular the
logged-and-swallowed error branch of `cancel_transfer` is unreachable,
because the transfer was found under the same lock. -/
theorem c6_cancel_all_outcomes (m : TransferManager) (transfer_id : Nat) :
    (mgrLookup m transfer_id = none → cancel_all m transfer_id = .error .badTransfer)
    ∧ (∀ xfer : LiveTransfer, mgrLookup m transfer_id = some xfer →
        ∃ m' : TransferManager, cancel_all m transfer_id = .ok (m', xfer.files))
    ∧ (cancel_all m transfer_id = .error .badTransfer
      ∨ ∃ (m' : TransferManager) (xfer : LiveTransfer),
          mgrLookup m transfer_id = some xfer
          ∧ cancel_all m transfer_id = .ok (m', xfer.files)) := by
  refine ⟨?_, ?_, ?_⟩
  · intro h
    simp only [cancel_all, h]
  · intro xfer h
    simp only [cancel_all, cancel_transfer, h]
    exact ⟨_, rfl⟩
  · cases hl : mgrLookup m transfer_id with
    | none =>
      left
      simp only [cancel_all, hl]
    | some xfer =>
      right
      refine ⟨{ m with transfers := m.transfers.filter fun e => !(e.1 == transfer_id) },
        xfer, rfl, ?_⟩
      simp only [cancel_all, cancel_transfer, hl]

/-- The empty transfer manager. -/
def emptyMgr : TransferManager :=
  { transfers := [], rejected := [] }

/-- A manager holding one live transfer (id 1) with two files. -/
def c6mgr : TransferManager :=
  { transfers := [(1, { files := ["f", "g"] })], rejected := [] }

/-- Witness for C6: a one-transfer manager (success case) and the empty
manager (BadTransfer case). -/
theorem c6_witness :
    (mgrLookup emptyMgr 5 = none
      ∧ cancel_all emptyMgr 5 = .error ServiceError.badTransfer)
    ∧ (mgrLookup c6mgr 1 = some { files := ["f", "g"] }
      ∧ ∃ m' : TransferManager,
          cancel_all c6mgr 1 = .ok (m', ({ files := ["f", "g"] } : LiveTransfer).files)) :=
  ⟨⟨rfl, (c6_cancel_all_outcomes emptyMgr 5).1 rfl⟩,
   ⟨rfl, (c6_cancel_all_outcomes c6mgr 1).2.1 { files := ["f", "g"] } rfl⟩⟩

/-- C7: rejecting a file is idempotent in its effect.  The first
`reject(t, f)` on a live transfer records the rejection and returns
success, sending one `Reject` request; a second `reject(t, f)` returns the
`Rejected` error without sending anything; across both calls at most one
`Reject` request reaches the peer-facing handler, hence at most one
Rejected journal event is produced. -/
theorem c7_reject_idempotent (m : TransferManager) (t : Nat) (f : String)
    (xfer : LiveTransfer) (hx : mgrLookup m t = some xfer)
    (hnr : (t, f) ∉ m.rejected) :
    ∃ m' : TransferManager,
      service_reject m t f = .ok (m', [f])
      ∧ (t, f) ∈ m'.rejected
      ∧ service_reject m' t f = .error .rejected
      ∧ (reject_requests (service_reject m t f)
          ++ reject_requests (service_reject m' t f)).length ≤ 1 := by
  set m' : TransferManager := { m with rejected := m.rejected ++ [(t, f)] } with hm'
  have hr1 : reject_file m t f = .ok (m', true) := by
    simp only [reject_file, hx]
    rw [if_neg hnr]
  have h1 : service_reject m t f = .ok (m', [f]) := by
    simp only [service_reject, hr1]
  have hx2 : mgrLookup m' t = some xfer := hx
  have hmem : (t, f) ∈ m'.rejected := by simp [hm']
  have hr2 : reject_file m' t f = .ok (m', false) := by
    simp only [reject_file, hx2]
    rw [if_pos hmem]
  have h2 : service_reject m' t f = .error .rejected := by
    simp only [service_reject, hr2]
  refine ⟨m', h1, hmem, h2, ?_⟩
  rw [h1, h2]
  simp [reject_requests]

/-- A manager holding one live transfer (id 1) with one file and no prior
rejection. -/
def c7mgr : TransferManager :=
  { transfers := [(1, { files := ["f"] })], rejected := [] }

/-- Witness for C7 at `c7mgr`. -/
theorem c7_witness :
    (mgrLookup c7mgr 1 = some { files := ["f"] }
      ∧ (1, "f") ∉ c7mgr.rejected)
    ∧ (∃ m' : TransferManager,
        service_reject c7mgr 1 "f" = .ok (m', ["f"])
        ∧ (1, "f") ∈ m'.rejected
        ∧ service_reject m' 1 "f" = .error .rejected
        ∧ (reject_requests (service_reject c7mgr 1 "f")
            ++ reject_requests (service_reject m' 1 "f")).length ≤ 1) :=
  ⟨⟨rfl, by simp [c7mgr]⟩,
   c7_reject_idempotent c7mgr 1 "f" { files := ["f"] } rfl (by simp [c7mgr])⟩

/-! ### Helper lemmas for `transfers_since` -/

/-- `mapM` in the `Option` monad succeeds pointwise. -/
theorem mapM_option_eq_map {α β : Type} (f : α → Option β) (g : α → β) :
    ∀ l : List α, (∀ a ∈ l, f a = some (g a)) → l.mapM f = some (l.map g)
  | [], _ => rfl
  | a :: l, h => by
    have ha := h a (List.mem_cons_self a l)
    have hl := mapM_option_eq_map f g l fun x hx => h x (List.mem_cons_of_mem a hx)
    rw [List.mapM_cons, ha, hl]
    rfl

/-- On a well-formed row (`is_outgoing` 0 or 1) `row_to_transfer` succeeds
and produces `transfer_of_row`. -/
theorem row_to_transfer_eq (s : Storage) (r : TransferRow)
    (hwf : r.is_outgoing = 0 ∨ r.is_outgoing = 1) :
    row_to_transfer s r = some (transfer_of_row s r) := by
  rcases hwf with h | h
  · simp [row_to_transfer, transfer_of_row, h]
  · simp [row_to_transfer, transfer_of_row, h]

/-- The sort used by the queries produces a `created_at`-ascending list. -/
theorem pairwise_sortByCreatedAt {α : Type} (created : α → Nat) (l : List α) :
    List.Pairwise (fun a b => created a ≤ created b) (sortByCreatedAt created l) := by
  have h := @List.sorted_mergeSort α (fun a b => decide (created a ≤ created b))
    (fun a b c h1 h2 => by
      simp only [decide_eq_true_eq] at *
      omega)
    (fun a b => by
      simp only [Bool.or_eq_true, decide_eq_true_eq]
      omega) l
  exact h.imp fun hab => by simpa using hab

/-- Folding `insert_incoming_path` never touches the `transfers` table. -/
theorem foldl_insert_incoming_transfers (now tid : Nat)
    (files : List TransferIncomingPath) :
    ∀ s : Storage,
      (files.foldl (fun s f => insert_incoming_path now tid f s) s).transfers =
        s.transfers := by
  induction files with
  | nil => intro s; rfl
  | cons f rest ih =>
    intro s
    rw [List.foldl_cons, ih]
    unfold insert_incoming_path
    split_ifs <;> rfl

/-- Folding `insert_outgoing_path` never touches the `transfers` table. -/
theorem foldl_insert_outgoing_transfers (now tid : Nat)
    (files : List TransferOutgoingPath) :
    ∀ s : Storage,
      (files.foldl (fun s f => insert_outgoing_path now tid f s) s).transfers =
        s.transfers := by
  induction files with
  | nil => intro s; rfl
  | cons f rest ih =>
    intro s
    rw [List.foldl_cons, ih]
    rfl

/-- `insert_transfer` appends exactly one row to `transfers`, carrying the
direction of the given `TransferFiles`. -/
theorem insert_transfer_transfers (now : Nat) (info : TransferInfo) (s : Storage) :
    (insert_transfer now info s).transfers =
      s.transfers ++
        [{ id := info.id
           peer := info.peer
           is_outgoing := info.files.direction.toCode
           created_at := now }] := by
  obtain ⟨iid, ipeer, ifiles⟩ := info
  cases ifiles with
  | incoming files =>
    simp only [insert_transfer]
    rw [foldl_insert_incoming_transfers]
  | outgoing files =>
    simp only [insert_transfer]
    rw [foldl_insert_outgoing_transfers]

/-- C1: `transfers_since(ts)` succeeds on a well-formed storage and returns
exactly the transfers created at or after `ts` (the image of the filtered
`transfers` rows), each with its transfer-level and per-file state-event
lists sorted in ascending `created_at` order; and reading back after an
`insert_transfer` yields a transfer with the inserted id whose stored
direction equals the direction given at insertion. -/
theorem c1_transfers_since_contract (s : Storage) (ts now : Nat)
    (info : TransferInfo)
    (hwf : ∀ r ∈ s.transfers, r.is_outgoing = 0 ∨ r.is_outgoing = 1) :
    (∃ l : List Transfer,
      transfers_since s ts = some l
      ∧ l = (s.transfers.filter fun r => ts ≤ r.created_at).map (transfer_of_row s)
      ∧ ∀ t ∈ l, ts ≤ t.created_at
          ∧ t.states.Pairwise (fun a b => a.created_at ≤ b.created_at)
          ∧ (∀ ps, t.transfer_type = DbTransferType.incoming ps →
              ∀ p ∈ ps, p.states.Pairwise fun a b => a.created_at ≤ b.created_at)
          ∧ (∀ ps, t.transfer_type = DbTransferType.outgoing ps →
              ∀ p ∈ ps, p.states.Pairwise fun a b => a.created_at ≤ b.created_at))
    ∧ (∃ l' : List Transfer,
        transfers_since (insert_transfer now info s) 0 = some l'
        ∧ ∃ t ∈ l', t.id = info.id
          ∧ t.transfer_type.direction = info.files.direction) := by
  constructor
  · refine ⟨(s.transfers.filter fun r => ts ≤ r.created_at).map (transfer_of_row s),
      ?_, rfl, ?_⟩
    · exact mapM_option_eq_map _ _ _ fun r hr =>
        row_to_transfer_eq s r (hwf r (List.mem_of_mem_filter hr))
    · intro t ht
      obtain ⟨r, hrf, rfl⟩ := List.mem_map.1 ht
      have hts : ts ≤ r.created_at := by simpa using List.of_mem_filter hrf
      refine ⟨hts, pairwise_sortByCreatedAt _ _, ?_, ?_⟩
      · intro ps hps p hp
        by_cases h1 : r.is_outgoing = 1
        · simp only [transfer_of_row, if_pos h1] at hps
          exact DbTransferType.noConfusion hps
        · simp only [transfer_of_row, if_neg h1] at hps
          have hps' : get_incoming_paths s r.id = ps := by injection hps
          rw [← hps'] at hp
          obtain ⟨row, hrow, rfl⟩ := List.mem_map.1 hp
          exact pairwise_sortByCreatedAt _ _
      · intro ps hps p hp
        by_cases h1 : r.is_outgoing = 1
        · simp only [transfer_of_row, if_pos h1] at hps
          have hps' : get_outgoing_paths s r.id = ps := by injection hps
          rw [← hps'] at hp
          obtain ⟨row, hrow, rfl⟩ := List.mem_map.1 hp
          exact pairwise_sortByCreatedAt _ _
        · simp only [transfer_of_row, if_neg h1] at hps
          exact DbTransferType.noConfusion hps
  · have htr := insert_transfer_transfers now info s
    have hwf' : ∀ r ∈ (insert_transfer now info s).transfers,
        r.is_outgoing = 0 ∨ r.is_outgoing = 1 := by
      rw [htr]
      intro r hr
      rcases List.mem_append.1 hr with hr | hr
      · exact hwf r hr
      · rw [List.mem_singleton.1 hr]
        cases info.files with
        | incoming _ => exact Or.inl rfl
        | outgoing _ => exact Or.inr rfl
    have hfilter : ((insert_transfer now info s).transfers.filter
        fun r => (0 : Nat) ≤ r.created_at) = (insert_transfer now info s).transfers :=
      List.filter_eq_self.mpr fun a _ => by simp
    have hsince : transfers_since (insert_transfer now info s) 0 =
        some ((insert_transfer now info s).transfers.map
          (transfer_of_row (insert_transfer now info s))) := by
      unfold transfers_since
      rw [hfilter]
      exact mapM_option_eq_map _ _ _ fun r hr => row_to_transfer_eq _ r (hwf' r hr)
    refine ⟨_, hsince, transfer_of_row (insert_transfer now info s)
      { id := info.id
        peer := info.peer
        is_outgoing := info.files.direction.toCode
        created_at := now }, ?_, rfl, ?_⟩
    · exact List.mem_map_of_mem _ (by
        rw [htr]
        exact List.mem_append_right _ (List.mem_singleton.2 rfl))
    · cases info.files with
      | incoming fs =>
        simp [transfer_of_row, TransferFiles.direction, TransferType.toCode,
          DbTransferType.direction]
      | outgoing fs =>
        simp [transfer_of_row, TransferFiles.direction, TransferType.toCode,
          DbTransferType.direction]

/-- A concrete transfer for the C1 witness. -/
def c1info : TransferInfo :=
  { id := 7
    peer := "peer"
    files := TransferFiles.incoming
      [{ file_id := "id1", relative_path := "1", size := 1024 }] }

/-- Witness for C1: the empty storage is well-formed, the read-back
contract holds on it, and inserting `c1info` stores its direction. -/
theorem c1_witness :
    (∀ r ∈ ({} : Storage).transfers, r.is_outgoing = 0 ∨ r.is_outgoing = 1)
    ∧ ((∃ l : List Transfer,
        transfers_since {} 0 = some l
        ∧ l = (({} : Storage).transfers.filter fun r => 0 ≤ r.created_at).map
            (transfer_of_row {})
        ∧ ∀ t ∈ l, 0 ≤ t.created_at
            ∧ t.states.Pairwise (fun a b => a.created_at ≤ b.created_at)
            ∧ (∀ ps, t.transfer_type = DbTransferType.incoming ps →
                ∀ p ∈ ps, p.states.Pairwise fun a b => a.created_at ≤ b.created_at)
            ∧ (∀ ps, t.transfer_type = DbTransferType.outgoing ps →
                ∀ p ∈ ps, p.states.Pairwise fun a b => a.created_at ≤ b.created_at))
      ∧ (∃ l' : List Transfer,
          transfers_since (insert_transfer 5 c1info {}) 0 = some l'
          ∧ ∃ t ∈ l', t.id = c1info.id
            ∧ t.transfer_type.direction = c1info.files.direction)) :=
  ⟨by simp, c1_transfers_since_contract {} 0 5 c1info (by simp)⟩

end Libdrop
